import Mathlib

/-!
Verification of the multi-source paper retrieval engine
(`tools/paper_search_tool.py`, class `PaperSearchTool`).

The development shallowly embeds the Python source:
* Python strings are `String`; `str.strip()` is `pyStrip`, `str.lower()` is
  `pyLower` (ASCII case folding, which coincides with Python on the
  alphabets appearing in this program), substring test `a in b` is
  `strContains b a`.
* Python `None`-able values are `Option`; the Python truthiness idiom
  `x or y` on strings is `pyOr`.
* Dicts produced by the tool are the structure `Record`
  (title/authors/year/citations/venue/venue_all/doi/url/pdf/abstract/source).
* The two HTTP clients are modelled as oracles: `invoke` receives the
  function `s2 : String → List Record` standing for
  `_search_semantic_scholar` applied to a query string (the numeric
  filters and the limit are passed identically to every call inside one
  `invoke`, so they are absorbed into the oracle), and
  `cr : String → List Record` standing for `_search_crossref`.
* The provider-response processing inside `_search_semantic_scholar`
  (normalization + client-side filtering, lines 108-143) is embedded
  separately and exactly, including the fact that the filtering loop sits
  outside the `try`/`except`: a raising comparison is `Except.error`.
-/

/-- Characters treated as whitespace by Python `str.strip()` (ASCII part). -/
def pySpace (c : Char) : Bool :=
  c = ' ' || c = '\t' || c = '\n' || c = '\r' || c = '\x0b' || c = '\x0c'

/-- Python `s.strip()`: drop leading and trailing whitespace. -/
def pyStrip (s : String) : String :=
  String.mk (((s.data.dropWhile pySpace).reverse.dropWhile pySpace).reverse)

/-- ASCII lower-casing of one character (Python `str.lower()` restricted to
the ASCII range used by this program). -/
def lowerAscii (c : Char) : Char :=
  if 'A' ≤ c ∧ c ≤ 'Z' then Char.ofNat (c.toNat + 32) else c

/-- Python `s.lower()` over the ASCII alphabet. -/
def pyLower (s : String) : String :=
  String.mk (s.data.map lowerAscii)

/-- Does the second list occur as an initial segment of the first argument
position list? Helper for the substring test. -/
def startsWithL : List Char → List Char → Bool
  | [], _ => true
  | _ :: _, [] => false
  | a :: as, b :: bs => a = b && startsWithL as bs

/-- Does `pat` occur as a contiguous sublist of `s`? -/
def containsSubL (pat : List Char) : List Char → Bool
  | [] => startsWithL pat []
  | c :: rest => startsWithL pat (c :: rest) || containsSubL pat rest

/-- Python `pat in s` (substring containment). -/
def strContains (s pat : String) : Bool :=
  containsSubL pat.data s.data

/-- Python `a or b` for an optional string `a`: the first truthy value
(`None` and `""` are falsy). -/
def pyOr (a : Option String) (b : String) : String :=
  match a with
  | some s => if s.isEmpty then b else s
  | none => b

/-- Python `a or b` for an optional list (truthiness: `None` and `[]` are
falsy). -/
def pyOrL (a : Option (List String)) (b : List String) : List String :=
  match a with
  | some l => if l.isEmpty then b else l
  | none => b

/-- Python `", ".join(...)` and friends. -/
def joinSep (sep : String) : List String → String
  | [] => ""
  | [x] => x
  | x :: xs => x ++ sep ++ joinSep sep xs

/-- The unified paper record produced by both source clients
(`title/authors/year/citations/venue/venue_all/doi/url/pdf/abstract/source`).
Fields that the Python dicts may hold as `None` are `Option`. -/
structure Record where
  title : String
  authors : String
  year : Option Int
  citations : Option Int
  venue : Option String
  venue_all : Option String
  doi : Option String
  url : Option String
  pdf : Option String
  abstract : String
  source : String
deriving DecidableEq

/-- Rendering of the Python value interpolated for `r.get('year')` in the
dedup key f-string: `None` or the decimal integer. -/
def yearRepr : Option Int → String
  | none => "None"
  | some y => toString y

/-- `PaperSearchTool._dedupe_key` (lines 205-209):
`doi:<lowered doi>` when the (lowered) DOI is truthy, otherwise
`title:<lowered title>|year:<year>`. -/
def dedupeKey (r : Record) : String :=
  let d := pyLower (pyOr r.doi "")
  if d.isEmpty then "title:" ++ pyLower r.title ++ "|year:" ++ yearRepr r.year
  else "doi:" ++ d

/-- The static alias dictionary of `_venue_aliases` (lines 214-241), in
source insertion order. -/
def aliasTable : List (String × List String) :=
  [ ("neurips",
      ["NeurIPS", "NIPS",
       "Neural Information Processing Systems",
       "Advances in Neural Information Processing Systems"]),
    ("icml", ["ICML", "International Conference on Machine Learning"]),
    ("iclr", ["ICLR", "International Conference on Learning Representations"]),
    ("cvpr", ["CVPR", "Computer Vision and Pattern Recognition"]),
    ("iccv", ["ICCV", "International Conference on Computer Vision"]),
    ("eccv", ["ECCV", "European Conference on Computer Vision"]),
    ("aaai", ["AAAI", "Association for the Advancement of Artificial Intelligence"]),
    ("acl", ["ACL", "Association for Computational Linguistics"]),
    ("emnlp", ["EMNLP", "Empirical Methods in Natural Language Processing"]),
    ("kdd", ["KDD", "SIGKDD", "Knowledge Discovery and Data Mining"]),
    ("sigir", ["SIGIR", "Information Retrieval"]),
    ("uai", ["UAI", "Uncertainty in Artificial Intelligence"]),
    ("jmlr", ["JMLR", "Journal of Machine Learning Research"]),
    ("tmlr", ["TMLR", "Transactions on Machine Learning Research"]),
    ("tpami", ["TPAMI", "Transactions on Pattern Analysis and Machine Intelligence"]),
    ("tacl", ["TACL", "Transactions of the Association for Computational Linguistics"]),
    ("nature", ["Nature"]),
    ("science", ["Science"]),
    ("cell", ["Cell"]),
    ("pnas", ["PNAS", "Proceedings of the National Academy of Sciences"]) ]

/-- Exact-key lookup in the alias dictionary (the
`for k, vals in aliases.items(): if t == k: return vals` scan). -/
def aliasKeyLookup (t : String) : Option (List String) :=
  (aliasTable.find? (fun p => t == p.1)).map (fun p => p.2)

/-- `PaperSearchTool._venue_aliases` (lines 211-246): trim+lower the input,
return the matching alias list verbatim on an exact key hit, otherwise
`[v]` (the original, untrimmed input) when `v` is truthy, else `[]`. -/
def venueAliases (v : String) : List String :=
  match aliasKeyLookup (pyLower (pyStrip v)) with
  | some vals => vals
  | none => if v.isEmpty then [] else [v]

example : venueAliases "NeurIPS" =
    ["NeurIPS", "NIPS", "Neural Information Processing Systems",
     "Advances in Neural Information Processing Systems"] := by decide

example : venueAliases "   " = ["   "] := by decide

example : pyStrip "  a b  " = "a b" := by decide

example : strContains "Advances in NIPS" "nips" = false := by decide

example : strContains (pyLower "Advances in NIPS") "nips" = true := by decide

/-- One item of a Semantic Scholar search response, reduced to the fields
the code reads (lines 109-142).  `citationCount` distinguishes an absent
key (`none`) from a key present with JSON `null` (`some none`), because
`item.get("citationCount", 0)` substitutes the default `0` only for an
absent key.  `externalIdsDOI`, `publicationVenueName` and
`openAccessPdfUrl` hold the value of the corresponding two-step optional
reads `(item.get(..) or {}).get(..)`. -/
structure S2Item where
  title : Option String
  year : Option Int
  citationCount : Option (Option Int)
  authorNames : List String
  venue : Option String
  publicationVenueName : Option String
  externalIdsDOI : Option String
  url : Option String
  openAccessPdfUrl : Option String
  abstract : Option String
deriving DecidableEq

/-- Python truthiness of an optional integer (`None` and `0` are falsy). -/
def pyTruthyInt : Option Int → Bool
  | none => false
  | some n => n != 0

/-- `item.get("citationCount", 0)`: the default `0` applies only when the
key is absent; a stored `null` is returned as `None`. -/
def ccDefaultZero : Option (Option Int) → Option Int
  | none => some 0
  | some x => x

/-- The DOI-URL construction shared by both clients (lines 122-123 and
184-185): `f"https://doi.org/{doi}" if doi else None`. -/
def doiNorm : Option String → Option String
  | some d => if d.isEmpty then none else some ("https://doi.org/" ++ d)
  | none => none

/-- Construction of the unified record from one Semantic Scholar item
(lines 119-142). -/
def s2Normalize (item : S2Item) : Record :=
  let authorsJoined := joinSep ", " item.authorNames
  { title := pyOr item.title "(제목 없음)"
    authors := if authorsJoined.isEmpty then "(저자 정보 없음)" else authorsJoined
    year := item.year
    citations := match item.citationCount with | none => none | some x => x
    venue := item.venue
    venue_all := some (joinSep " | "
      (([item.venue, item.publicationVenueName].filterMap id).filter
        (fun s => !s.isEmpty)))
    doi := doiNorm item.externalIdsDOI
    url := item.url
    pdf := item.openAccessPdfUrl
    abstract := pyOr item.abstract "(초록 없음)"
    source := "Semantic Scholar" }

/-- The `min_citations` test (lines 116-117).  When `min_citations` is not
`None`, the comparison `item.get("citationCount", 0) < int(min_citations)`
is evaluated: if the stored citation count is `null`, Python raises a
`TypeError` (the loop is outside the `try`), modelled as `Except.error`.
`Except.ok none` means the item is skipped, `Except.ok (some r)` that the
normalized record `r` is appended. -/
def s2CitationStage (mc : Option Int) (item : S2Item) : Except String (Option Record) :=
  match mc with
  | none => Except.ok (some (s2Normalize item))
  | some m =>
    match ccDefaultZero item.citationCount with
    | none => Except.error "TypeError: unsupported comparison between NoneType and int"
    | some c => if c < m then Except.ok none else Except.ok (some (s2Normalize item))

/-- The whole loop body for one item (lines 110-142): the two truthiness
year tests, then the citation test, then normalization. -/
def s2ProcessItem (yf yt mc : Option Int) (item : S2Item) : Except String (Option Record) :=
  if pyTruthyInt yf && pyTruthyInt item.year && decide (item.year.getD 0 < yf.getD 0) then
    Except.ok none
  else if pyTruthyInt yt && pyTruthyInt item.year && decide (yt.getD 0 < item.year.getD 0) then
    Except.ok none
  else s2CitationStage mc item

/-- The filtering loop of `_search_semantic_scholar` over a parsed
response (lines 108-143); the first raising item aborts the whole call. -/
def s2Process (yf yt mc : Option Int) : List S2Item → Except String (List Record)
  | [] => Except.ok []
  | it :: rest =>
    match s2ProcessItem yf yt mc it with
    | Except.error e => Except.error e
    | Except.ok none => s2Process yf yt mc rest
    | Except.ok (some r) =>
      match s2Process yf yt mc rest with
      | Except.error e => Except.error e
      | Except.ok l => Except.ok (r :: l)

/-- `_search_semantic_scholar` around the transport (lines 100-106): any
exception inside the `try` block (network error, timeout,
`raise_for_status` on a non-2xx status, or `res.json()` on a malformed
body) is caught and the function returns `[]`; a successful transport
hands the parsed items to the filtering loop. -/
def s2ClientResult (resp : Except String (List S2Item)) (yf yt mc : Option Int) :
    Except String (List Record) :=
  match resp with
  | Except.error _ => Except.ok []
  | Except.ok items => s2Process yf yt mc items

/-- One item of a Crossref response, reduced to the fields read in lines
175-188. `issuedDateParts` is `it["issued"]["date-parts"]` when the two
keys are present; `authorGivenFamily` holds the
`(a.get('given',''), a.get('family',''))` pairs of the dict entries of
`it.get("author", [])`. -/
structure CrItem where
  titleList : Option (List String)
  authorGivenFamily : List (String × String)
  issuedDateParts : Option (List (List Int))
  DOI : Option String
  URL : Option String
  containerTitle : Option (List String)
deriving DecidableEq

/-- Year extraction (lines 181-183): `it["issued"]["date-parts"][0][0]`
guarded by the truthiness of the date-parts list.  An absent or empty
(falsy) date-parts list leaves the year `None`; a truthy list whose first
inner list is empty raises an `IndexError` (the loop is outside the
`try`), modelled as `Except.error`. -/
def crYear : Option (List (List Int)) → Except String (Option Int)
  | some ((y :: _) :: _) => Except.ok (some y)
  | some ([] :: _) => Except.error "IndexError: list index out of range"
  | _ => Except.ok none

/-- The unified record built from one Crossref item once its year value
`yr` has been extracted (lines 176-201). -/
def crRecordOf (it : CrItem) (yr : Option Int) : Record :=
  let title := (pyOrL it.titleList ["(제목 없음)"]).headD "(제목 없음)"
  let authorsJoined := joinSep ", "
    (it.authorGivenFamily.map (fun p => pyStrip (p.1 ++ " " ++ p.2)))
  let doiUrl := doiNorm it.DOI
  let venueTitle :=
    match (pyOrL it.containerTitle [""]).headD "" with
    | t => if t.isEmpty then none else some t
  { title := title
    authors := if authorsJoined.isEmpty then "(저자 정보 없음)" else authorsJoined
    year := yr
    citations := none
    venue := venueTitle
    venue_all := venueTitle
    doi := doiUrl
    url := match doiUrl with | some u => some u | none => it.URL
    pdf := none
    abstract := "(초록 없음)"
    source := "Crossref" }

/-- Normalization of one Crossref item (lines 176-201): the year
extraction can raise, and it happens before the DOI is built, so a
raising item produces no record at all. -/
def crNormalize (it : CrItem) : Except String Record :=
  match crYear it.issuedDateParts with
  | Except.error e => Except.error e
  | Except.ok yr => Except.ok (crRecordOf it yr)

/-- The normalization loop of `_search_crossref` over a parsed response
(lines 174-202); the first raising item aborts the whole call. -/
def crProcess : List CrItem → Except String (List Record)
  | [] => Except.ok []
  | it :: rest =>
    match crNormalize it with
    | Except.error e => Except.error e
    | Except.ok r =>
      match crProcess rest with
      | Except.error e => Except.error e
      | Except.ok l => Except.ok (r :: l)

/-- `_search_crossref` around the transport (lines 166-172): any exception
inside the `try` block yields `[]`; otherwise the items are normalized by
the loop (which sits outside the `try` and can itself raise). -/
def crClientResult (resp : Except String (List CrItem)) : Except String (List Record) :=
  match resp with
  | Except.error _ => Except.ok []
  | Except.ok items => crProcess items

/-- The inner merge loop of `invoke` (lines 52-56): append each record of
one alias response whose dedup key is not in `seen`, recording its key.
The Python `set` is modelled as a key list queried by membership. -/
def mergeResp : List Record → List String → List Record → List Record × List String
  | rs, seen, [] => (rs, seen)
  | rs, seen, r :: more =>
    if seen.contains (dedupeKey r) then mergeResp rs seen more
    else mergeResp (rs ++ [r]) (seen ++ [dedupeKey r]) more

/-- The alias loop of `invoke` (lines 43-56): for each alias, query the
primary client with `f"{query} {alias}"` and merge the response. -/
def mergeAliases (s2 : String → List Record) (query : String) :
    List String → List Record → List String → List Record × List String
  | [], rs, seen => (rs, seen)
  | a :: rest, rs, seen =>
    let p := mergeResp rs seen (s2 (query ++ " " ++ a))
    mergeAliases s2 query rest p.1 p.2

/-- The working list after the base query and the alias loop (lines 38-56,
venue branch): the base response `s2 query` seeds both the list and the
key set. -/
def mergedList (s2 : String → List Record) (query vTxt : String) : List Record :=
  (mergeAliases s2 query (venueAliases vTxt) (s2 query) ((s2 query).map dedupeKey)).1

/-- One record's venue containment test (line 62):
`v in ((r.get("venue_all") or r.get("venue") or "").lower())`. -/
def venueMatch (v : String) (r : Record) : Bool :=
  strContains (pyLower (pyOr r.venue_all (pyOr r.venue ""))) v

/-- The post-filter of `invoke` (lines 59-65): keep the filtered list only
when it is non-empty, otherwise keep the pre-filter list. -/
def venueStage (merged : List Record) (v : String) : List Record :=
  let f := merged.filter (venueMatch v)
  if f.isEmpty then merged else f

/-- The guard `if venue and venue.strip():` of line 41. -/
def venueActive : Option String → Bool
  | none => false
  | some s => !s.isEmpty && !(pyStrip s).isEmpty

/-- The working list after step 2 of `invoke`: with an active venue, the
alias-merged list put through the venue filter; otherwise the base
response alone. -/
def afterVenue (s2 : String → List Record) (query : String) (venue : Option String) :
    List Record :=
  if venueActive venue then
    venueStage (mergedList s2 query (venue.getD ""))
      (pyLower (pyStrip (venue.getD "")))
  else s2 query

/-- The untruncated final list of `invoke` (lines 67-74): the Crossref
fallback replaces an empty working list. -/
def finalList (s2 cr : String → List Record) (query : String) (venue : Option String) :
    List Record :=
  let w := afterVenue s2 query venue
  if w.isEmpty then cr query else w

/-- `PaperSearchTool.invoke` (lines 19-77), with the two clients as
oracles from the query string to their returned record lists (`invoke`
passes the same numeric filters and limit to every primary call, and the
original numeric filters to the single fallback call, so those arguments
are absorbed into the oracles). -/
def invoke (s2 cr : String → List Record) (query : String) (venue : Option String)
    (maxResults : Nat) : List Record :=
  (finalList s2 cr query venue).take maxResults

/-- Reference restatement of the spec's merge policy (spec §4.5 steps 2-3),
used to compare the source's interleaved accumulator with a directly
described dedup: keep, from the concatenated alias responses, exactly the
records whose key is not already seen, extending the seen keys in order. -/
def specKeepNew : List String → List Record → List Record
  | _, [] => []
  | seen, r :: more =>
    if seen.contains (dedupeKey r) then specKeepNew seen more
    else r :: specKeepNew (seen ++ [dedupeKey r]) more

/-- The concatenation, in alias order, of the alias-expansion responses. -/
def aliasResponsesJoined (s2 : String → List Record) (query vTxt : String) : List Record :=
  ((venueAliases vTxt).map (fun a => s2 (query ++ " " ++ a))).flatten

/-- Fixture builder: a normalized-shape record with the fields the
orchestration claims vary. -/
def recOf (t : String) (d : Option String) (va : Option String) (yr : Option Int) : Record :=
  { title := t, authors := "A", year := yr, citations := none, venue := none,
    venue_all := va, doi := d, url := none, pdf := none, abstract := "-",
    source := "Semantic Scholar" }

/-- Two fixture records sharing one DOI with different titles. -/
def rA : Record := recOf "paper one" (some "10.1/X") (some "AAAI") (some 2020)

/-- Second fixture record with the DOI of `rA` (different title and year). -/
def rB : Record := recOf "paper two" (some "10.1/X") (some "AAAI") (some 2021)

/-- Fixture record with no DOI and a venue that matches nothing we filter on. -/
def rN : Record := recOf "plain paper" none (some "AAAI") none

/-- Fixture record standing for a Crossref fallback result. -/
def rC : Record := recOf "fallback paper" (some "10.9/F") (some "Journal X") (some 2019)

/-- Primary oracle returning the DOI-duplicate pair on the base query. -/
def s2Dup : String → List Record := fun q => if q = "ml" then [rA, rB] else []

/-- Primary oracle returning one non-matching record on the base query. -/
def s2One : String → List Record := fun q => if q = "q" then [rN] else []

/-- Primary oracle that always fails (every call surfaces as `[]`). -/
def s2Empty : String → List Record := fun _ => []

/-- Fallback oracle with one result. -/
def crOne : String → List Record := fun _ => [rC]

/-- Fallback oracle with a different result (for fallback-independence). -/
def crTwo : String → List Record := fun _ => [rC, rN]

/-- Fallback oracle with no results. -/
def crEmpty : String → List Record := fun _ => []

example : invoke s2Dup crEmpty "ml" (some "zzz") 5 = [rA, rB] := by decide

example : invoke s2Dup crEmpty "ml" none 5 = [rA, rB] := by decide

example : invoke s2One crEmpty "q" (some "zzz") 5 = [rN] := by decide

example : invoke s2Empty crOne "q" (some "neurips") 5 = [rC] := by decide

example : invoke s2One crEmpty "q" (some "aaai") 5 = [rN] := by decide

example : dedupeKey rA = "doi:10.1/x" := by decide

example : dedupeKey rN = "title:plain paper|year:None" := by decide

theorem mergeResp_eq (more : List Record) : ∀ (rs : List Record) (seen : List String),
    mergeResp rs seen more =
      (rs ++ specKeepNew seen more,
       seen ++ (specKeepNew seen more).map dedupeKey) := by
  induction more with
  | nil => intro rs seen; simp [mergeResp, specKeepNew]
  | cons r more ih =>
    intro rs seen
    by_cases h : dedupeKey r ∈ seen
    · simp [mergeResp, specKeepNew, h, ih]
    · simp [mergeResp, specKeepNew, h, ih, List.append_assoc]

theorem specKeepNew_append (l1 l2 : List Record) : ∀ (seen : List String),
    specKeepNew seen (l1 ++ l2) =
      specKeepNew seen l1 ++
        specKeepNew (seen ++ (specKeepNew seen l1).map dedupeKey) l2 := by
  induction l1 with
  | nil => intro seen; simp [specKeepNew]
  | cons r l1 ih =>
    intro seen
    by_cases h : dedupeKey r ∈ seen
    · simp [specKeepNew, h, ih]
    · simp [specKeepNew, h, ih, List.append_assoc]

theorem mergeAliases_eq (s2 : String → List Record) (query : String) :
    ∀ (aliases : List String) (rs : List Record) (seen : List String),
      mergeAliases s2 query aliases rs seen =
        (rs ++ specKeepNew seen
            ((aliases.map (fun a => s2 (query ++ " " ++ a))).flatten),
         seen ++ (specKeepNew seen
            ((aliases.map (fun a => s2 (query ++ " " ++ a))).flatten)).map dedupeKey) := by
  intro aliases
  induction aliases with
  | nil => intro rs seen; simp [mergeAliases, specKeepNew]
  | cons a rest ih =>
    intro rs seen
    simp only [mergeAliases, mergeResp_eq, List.map_cons, List.flatten_cons,
      specKeepNew_append, List.map_append, List.append_assoc]
    rw [ih]
    simp [List.append_assoc]

/-- C3 (corrected). In the orchestrator's merge, deduplication applies only
to records arriving from the alias-expansion calls: the working list is
exactly the base response (all of it, duplicates included) followed by
those alias-response records, in encounter order, whose dedup key —
`doi:<lowercased doi>` when the DOI is non-empty, else
`title:<lowercased title>|year:<year or null>` — is not already the key of
an earlier kept record. -/
theorem merge_dedupes_alias_records_only (s2 : String → List Record)
    (query vTxt : String) :
    mergedList s2 query vTxt =
      s2 query ++ specKeepNew ((s2 query).map dedupeKey)
        (aliasResponsesJoined s2 query vTxt) := by
  simp [mergedList, aliasResponsesJoined, mergeAliases_eq]

/-- C3 counterexample: with a non-empty venue, two records sharing one DOI
(case-insensitively equal, different titles) that both arrive in the base
response are both kept by `invoke`, refuting "only the first-encountered
one is kept" as a statement about any two records. -/
theorem merge_keeps_base_doi_duplicates_cex :
    pyOr rA.doi "" ≠ "" ∧
    pyLower (pyOr rA.doi "") = pyLower (pyOr rB.doi "") ∧
    rA.title ≠ rB.title ∧
    invoke s2Dup crEmpty "ml" (some "zzz") 5 = [rA, rB] := by decide

/-- C8: the list returned by `invoke` is the `maxResults`-prefix of the
untruncated merged/filtered/fallback sequence, and its length never
exceeds `maxResults`. -/
theorem retrieve_truncation (s2 cr : String → List Record) (query : String)
    (venue : Option String) (maxResults : Nat) :
    invoke s2 cr query venue maxResults =
      (finalList s2 cr query venue).take maxResults ∧
    (invoke s2 cr query venue maxResults).length ≤ maxResults := by
  refine ⟨rfl, ?_⟩
  simp only [invoke, List.length_take]
  exact Nat.min_le_left _ _

/-- C10: with an absent, empty or whitespace-only venue, `invoke` performs
no alias expansion, deduplication or venue filtering: it returns the base
primary response (or, when that is empty, the fallback response)
truncated — so duplicates inside that single response are all kept. -/
theorem no_venue_no_processing (s2 cr : String → List Record) (query : String)
    (venue : Option String) (maxResults : Nat) (hv : venueActive venue = false) :
    invoke s2 cr query venue maxResults =
      (if (s2 query).isEmpty then cr query else s2 query).take maxResults := by
  simp [invoke, finalList, afterVenue, hv]

/-- C10 witness: venue absent, base response containing two records with
the same DOI; the result is the untouched base response. -/
theorem no_venue_no_processing_inst :
    invoke s2Dup crEmpty "ml" none 5 = [rA, rB] :=
  (no_venue_no_processing s2Dup crEmpty "ml" none 5 rfl).trans (by decide)

/-- C4: when the working list after the base query, alias expansion and
venue filter is empty, `invoke` returns exactly the Crossref oracle's
output for the original query, truncated, with no venue filter applied;
when the working list is non-empty, the result is its truncation and does
not depend on the fallback oracle at all. -/
theorem fallback_exact_secondary_output (s2 cr cr2 : String → List Record)
    (query : String) (venue : Option String) (maxResults : Nat) :
    (afterVenue s2 query venue = [] →
      invoke s2 cr query venue maxResults = (cr query).take maxResults) ∧
    (afterVenue s2 query venue ≠ [] →
      invoke s2 cr query venue maxResults =
        (afterVenue s2 query venue).take maxResults ∧
      invoke s2 cr query venue maxResults = invoke s2 cr2 query venue maxResults) := by
  constructor
  · intro h
    simp [invoke, finalList, h]
  · intro h
    cases hw : afterVenue s2 query venue with
    | nil => exact absurd hw h
    | cons b t =>
      constructor
      · simp [invoke, finalList, hw]
      · simp [invoke, finalList, hw]

/-- C4 witness: an all-failing primary with venue `"neurips"` falls back to
the Crossref output; a non-empty primary result ignores the fallback
oracle. -/
theorem fallback_exact_secondary_output_inst :
    invoke s2Empty crOne "q" (some "neurips") 5 = (crOne "q").take 5 ∧
    (invoke s2Dup crOne "ml" none 5 = (afterVenue s2Dup "ml" none).take 5 ∧
     invoke s2Dup crOne "ml" none 5 = invoke s2Dup crTwo "ml" none 5) :=
  ⟨(fallback_exact_secondary_output s2Empty crOne crOne "q" (some "neurips") 5).1
      (by decide),
   (fallback_exact_secondary_output s2Dup crOne crTwo "ml" none 5).2 (by decide)⟩

/-- C1: with a non-empty venue, if the venue containment filter empties the
merged list its effect is discarded and the pre-filter merged list stands
unchanged at that stage; and any record surviving into the final list
whose match target (`venue_all`, or `venue` when `venue_all` is
absent/empty) contains, case-insensitively, neither the normalized venue
string nor any of the lowercased alias strings for that venue can only
occur in the filter-emptied case. -/
theorem retrieve_venue_filter_excludes_nonmatching (s2 cr : String → List Record)
    (query venueStr : String) (maxResults : Nat)
    (hv : venueActive (some venueStr) = true) :
    ((mergedList s2 query venueStr).filter
        (venueMatch (pyLower (pyStrip venueStr))) = [] →
      venueStage (mergedList s2 query venueStr) (pyLower (pyStrip venueStr)) =
        mergedList s2 query venueStr) ∧
    (∀ r, r ∈ invoke s2 cr query (some venueStr) maxResults →
      venueMatch (pyLower (pyStrip venueStr)) r = false →
      (∀ a ∈ venueAliases venueStr,
        strContains (pyLower (pyOr r.venue_all (pyOr r.venue ""))) (pyLower a) = false) →
      (mergedList s2 query venueStr).filter
        (venueMatch (pyLower (pyStrip venueStr))) = []) := by
  constructor
  · intro h
    simp [venueStage, h]
  · intro r hr hnv _ha
    by_contra hne
    cases hf : (mergedList s2 query venueStr).filter
        (venueMatch (pyLower (pyStrip venueStr))) with
    | nil => exact hne hf
    | cons b t =>
      have hw : afterVenue s2 query (some venueStr) = b :: t := by
        simp [afterVenue, hv, venueStage, hf]
      have hiv : invoke s2 cr query (some venueStr) maxResults =
          (b :: t).take maxResults := by
        simp [invoke, finalList, hw]
      rw [hiv] at hr
      have hr2 : r ∈ b :: t := List.take_subset _ _ hr
      rw [← hf] at hr2
      have hmatch := (List.mem_filter.mp hr2).2
      rw [hnv] at hmatch
      exact absurd hmatch (by decide)

/-- C1 witness: venue `"zzz"` (active), one merged record whose match
target contains neither `"zzz"` nor any alias; it survives, and indeed the
filter result is empty. -/
theorem retrieve_venue_filter_excludes_nonmatching_inst :
    (mergedList s2One "q" "zzz").filter (venueMatch (pyLower (pyStrip "zzz"))) = [] :=
  (retrieve_venue_filter_excludes_nonmatching s2One crEmpty "q" "zzz" 5 (by decide)).2
    rN (by decide) (by decide) (by decide)

/-- C5 (corrected): `_venue_aliases` returns the dictionary list verbatim
on an exact trimmed-lowercased key match; otherwise it returns the
single-element list holding the original input exactly as given (not
trimmed) whenever that input is a non-empty string — including
whitespace-only input — and the empty list only for the empty string. -/
theorem venue_aliases_behavior (v : String) :
    (∀ vals, aliasKeyLookup (pyLower (pyStrip v)) = some vals → venueAliases v = vals) ∧
    (aliasKeyLookup (pyLower (pyStrip v)) = none →
      venueAliases v = if v.isEmpty then [] else [v]) := by
  constructor
  · intro vals h
    simp [venueAliases, h]
  · intro h
    simp [venueAliases, h]

/-- C5 counterexample: a whitespace-only input trims to the empty string
yet yields the untrimmed singleton, not the empty list; a padded unknown
venue is returned untrimmed. -/
theorem venue_aliases_whitespace_cex :
    pyStrip "   " = "" ∧ venueAliases "   " ≠ [] ∧
    venueAliases " Journal of Tests " = [" Journal of Tests "] := by decide

/-- C5 witness: a key hit returns the authored list verbatim; the empty
string returns the empty list. -/
theorem venue_aliases_behavior_inst :
    venueAliases "NeurIPS" =
      ["NeurIPS", "NIPS", "Neural Information Processing Systems",
       "Advances in Neural Information Processing Systems"] ∧
    venueAliases "" = [] :=
  ⟨(venue_aliases_behavior "NeurIPS").1
      ["NeurIPS", "NIPS", "Neural Information Processing Systems",
       "Advances in Neural Information Processing Systems"] (by decide),
   ((venue_aliases_behavior "").2 (by decide)).trans (by decide)⟩

/-- Baseline Semantic Scholar item fixture. -/
def itBase : S2Item :=
  { title := some "t", year := some 2021, citationCount := some (some 3),
    authorNames := ["X Y"], venue := some "Nature", publicationVenueName := none,
    externalIdsDOI := none, url := none, openAccessPdfUrl := none, abstract := none }

/-- Fixture: raw DOI is a bare identifier. -/
def itD1 : S2Item := { itBase with externalIdsDOI := some "10.1038/xyz" }

/-- Fixture: raw DOI is already a full DOI URL. -/
def itD2 : S2Item := { itBase with externalIdsDOI := some "https://doi.org/10.1038/xyz" }

/-- Fixture: citation-count key present with a `null` value, year unknown. -/
def itNullCC : S2Item := { itBase with citationCount := some none, year := none }

/-- Fixture: citation-count key absent, year unknown. -/
def itNoCC : S2Item := { itBase with citationCount := none, year := none }

/-- Fixture: citation count 0. -/
def itCC0 : S2Item := { itBase with citationCount := some (some 0) }

/-- Crossref item fixture with a bare DOI. -/
def ctD : CrItem :=
  { titleList := some ["t"], authorGivenFamily := [("A", "B")],
    issuedDateParts := some [[2020]], DOI := some "10.1038/xyz", URL := none,
    containerTitle := some ["Nature"] }

/-- C2 counterexample: the two normalizations of a bare and an
already-URL-form DOI are not identical — the latter is double-prefixed. -/
theorem doi_normalization_not_idempotent_cex :
    (s2Normalize itD1).doi = some "https://doi.org/10.1038/xyz" ∧
    (s2Normalize itD2).doi = some "https://doi.org/https://doi.org/10.1038/xyz" ∧
    (s2Normalize itD1).doi ≠ (s2Normalize itD2).doi := by decide

/-- C2 (corrected): both schema normalizers prefix `https://doi.org/` to
any truthy raw DOI unconditionally — the Semantic Scholar normalizer on
every item, the Crossref normalizer on every item it completes (its year
extraction, which runs before the DOI is built, can raise) — so a bare
identifier becomes the full URL while an input already in URL form is
double-prefixed rather than left fixed. -/
theorem doi_normalization_prefixes_unconditionally (it : S2Item) (ct : CrItem)
    (d : String) (hd : d.isEmpty = false) :
    (it.externalIdsDOI = some d →
      (s2Normalize it).doi = some ("https://doi.org/" ++ d)) ∧
    (ct.DOI = some d → ∀ r, crNormalize ct = Except.ok r →
      r.doi = some ("https://doi.org/" ++ d)) := by
  constructor
  · intro h
    simp [s2Normalize, doiNorm, h, hd]
  · intro h r hr
    rw [crNormalize] at hr
    cases hy : crYear ct.issuedDateParts with
    | error e => rw [hy] at hr; exact absurd hr (by simp)
    | ok yr =>
      rw [hy] at hr
      have hr2 : crRecordOf ct yr = r := by
        injection hr
      rw [← hr2]
      simp [crRecordOf, doiNorm, h, hd]

/-- C2 witness: the bare DOI `10.1038/xyz` is normalized to the full URL
by both normalizers (the Crossref fixture has a well-formed date-parts
list, so its normalization completes with the record
`crRecordOf ctD (some 2020)`). -/
theorem doi_normalization_prefixes_unconditionally_inst :
    (s2Normalize itD1).doi = some ("https://doi.org/" ++ "10.1038/xyz") ∧
    (crRecordOf ctD (some 2020)).doi = some ("https://doi.org/" ++ "10.1038/xyz") :=
  ⟨(doi_normalization_prefixes_unconditionally itD1 ctD "10.1038/xyz" (by decide)).1 rfl,
   (doi_normalization_prefixes_unconditionally itD1 ctD "10.1038/xyz" (by decide)).2 rfl
     (crRecordOf ctD (some 2020)) rfl⟩

/-- C6 counterexample: an item whose provider-supplied citation count is
`null` makes the primary client's filter comparison raise a `TypeError`
when `min_citations` is set (here `0`), instead of being compared as
zero without error. -/
theorem null_citation_count_raises_cex :
    s2ProcessItem none none (some 0) itNullCC =
      Except.error "TypeError: unsupported comparison between NoneType and int" := rfl

/-- C6 (corrected): a record with unknown year is never excluded by the
year filter, and absent bounds exclude nothing; with `minCitations`
present, a record whose citation-count key is absent is compared as zero
(excluded exactly when `minCitations > 0`), but a key present with a
`null` value makes the comparison raise instead of being coerced; a
record that passes with no provided count keeps `citations` null. -/
theorem year_and_citation_filter_behavior :
    (∀ (yf yt mc : Option Int) (item : S2Item), item.year = none →
      s2ProcessItem yf yt mc item = s2CitationStage mc item) ∧
    (∀ (mc : Option Int) (item : S2Item),
      s2ProcessItem none none mc item = s2CitationStage mc item) ∧
    (∀ (m : Int) (item : S2Item), item.citationCount = none →
      s2CitationStage (some m) item =
        if 0 < m then Except.ok none else Except.ok (some (s2Normalize item))) ∧
    (∀ (m : Int) (item : S2Item), item.citationCount = some none →
      s2CitationStage (some m) item =
        Except.error "TypeError: unsupported comparison between NoneType and int") ∧
    (∀ item : S2Item, item.citationCount = none ∨ item.citationCount = some none →
      (s2Normalize item).citations = none) := by
  refine ⟨?_, ?_, ?_, ?_, ?_⟩
  · intro yf yt mc item h
    simp [s2ProcessItem, h, pyTruthyInt]
  · intro mc item
    simp [s2ProcessItem, pyTruthyInt]
  · intro m item h
    simp [s2CitationStage, h, ccDefaultZero]
  · intro m item h
    simp [s2CitationStage, h, ccDefaultZero]
  · intro item h
    cases h with
    | inl h => simp [s2Normalize, h]
    | inr h => simp [s2Normalize, h]

/-- C6 witness: the amended behavior at concrete items — unknown year
skips the year filter under both bounds, an absent citation-count key is
compared as zero under `minCitations = 5`, a null one raises, and a
record with no provided count keeps `citations` null. -/
theorem year_and_citation_filter_behavior_inst :
    s2ProcessItem (some 1990) (some 2030) none itNoCC = s2CitationStage none itNoCC ∧
    s2CitationStage (some 5) itNoCC =
      (if (0 : Int) < 5 then Except.ok none
       else Except.ok (some (s2Normalize itNoCC))) ∧
    s2CitationStage (some 5) itNullCC =
      Except.error "TypeError: unsupported comparison between NoneType and int" ∧
    (s2Normalize itNullCC).citations = none :=
  ⟨year_and_citation_filter_behavior.1 (some 1990) (some 2030) none itNoCC rfl,
   year_and_citation_filter_behavior.2.2.1 5 itNoCC rfl,
   year_and_citation_filter_behavior.2.2.2.1 5 itNullCC rfl,
   year_and_citation_filter_behavior.2.2.2.2 itNullCC (Or.inr rfl)⟩

/-- C7: with a provider-supplied integer citation count, a present
`min_citations = m` excludes the item exactly when its count is below
`m` — so `0` is a meaningful bound — while an absent `min_citations`
never excludes. -/
theorem min_citations_zero_meaningful (item : S2Item) (c m : Int)
    (hcc : item.citationCount = some (some c)) :
    (s2ProcessItem none none (some m) item = Except.ok none ↔ c < m) ∧
    s2ProcessItem none none none item = Except.ok (some (s2Normalize item)) := by
  constructor
  · by_cases hc : c < m
    · simp [s2ProcessItem, s2CitationStage, pyTruthyInt, ccDefaultZero, hcc, hc]
    · simp [s2ProcessItem, s2CitationStage, pyTruthyInt, ccDefaultZero, hcc, hc]
  · simp [s2ProcessItem, s2CitationStage, pyTruthyInt]

/-- C7 witness: a record with citation count `0` under `minCitations = 0`
is excluded exactly when `0 < 0` (that is, never), and kept when the
filter is absent. -/
theorem min_citations_zero_meaningful_inst :
    (s2ProcessItem none none (some 0) itCC0 = Except.ok none ↔ (0 : Int) < 0) ∧
    s2ProcessItem none none none itCC0 = Except.ok (some (s2Normalize itCC0)) :=
  min_citations_zero_meaningful itCC0 0 0 rfl

theorem mergeAliases_skip (s2 : String → List Record) (query a : String)
    (h : s2 (query ++ " " ++ a) = []) :
    ∀ (pre post : List String) (rs : List Record) (seen : List String),
      mergeAliases s2 query (pre ++ a :: post) rs seen =
        mergeAliases s2 query (pre ++ post) rs seen := by
  intro pre
  induction pre with
  | nil =>
    intro post rs seen
    simp [mergeAliases, h, mergeResp]
  | cons b pre ih =>
    intro post rs seen
    simp only [List.cons_append, mergeAliases]
    exact ih post _ _

theorem invoke_all_fail (s2 cr : String → List Record) (query : String)
    (venue : Option String) (maxResults : Nat) (hall : ∀ q, s2 q = []) :
    invoke s2 cr query venue maxResults = (cr query).take maxResults := by
  have hm : ∀ vTxt, mergedList s2 query vTxt = [] := by
    intro vTxt
    simp [mergedList, mergeAliases_eq, hall, specKeepNew]
  have ha : afterVenue s2 query venue = [] := by
    by_cases hv : venueActive venue = true
    · simp [afterVenue, hv, hm, venueStage]
    · simp only [Bool.not_eq_true] at hv
      simp [afterVenue, hv, hall]
  simp [invoke, finalList, ha]

/-- C9: a transport failure (network error, timeout, non-2xx status, or a
body that fails to parse) in either client is caught inside that client
and surfaces as an empty list, not as an error of `invoke`; an alias call
that surfaced as empty is a no-op in the merge rather than an abort; and
when every primary call fails, `invoke` still reaches the fallback and
returns its truncated output. -/
theorem transport_failure_fail_soft :
    (∀ (e : String) (yf yt mc : Option Int),
      s2ClientResult (Except.error e) yf yt mc = Except.ok []) ∧
    (∀ e : String, crClientResult (Except.error e) = Except.ok []) ∧
    (∀ (s2 : String → List Record) (query a : String) (pre post : List String)
        (rs : List Record) (seen : List String), s2 (query ++ " " ++ a) = [] →
      mergeAliases s2 query (pre ++ a :: post) rs seen =
        mergeAliases s2 query (pre ++ post) rs seen) ∧
    (∀ (s2 cr : String → List Record) (query : String) (venue : Option String)
        (maxResults : Nat), (∀ q, s2 q = []) →
      invoke s2 cr query venue maxResults = (cr query).take maxResults) :=
  ⟨fun _ _ _ _ => rfl, fun _ => rfl,
   fun s2 query a pre post rs seen h => mergeAliases_skip s2 query a h pre post rs seen,
   invoke_all_fail⟩

/-- C9 witness: a concrete timeout and a concrete HTTP failure yield empty
lists; a concrete empty alias call is skipped without aborting the loop;
an all-failing primary still reaches the fallback. -/
theorem transport_failure_fail_soft_inst :
    s2ClientResult (Except.error "timeout") none none none = Except.ok [] ∧
    crClientResult (Except.error "HTTP 500") = Except.ok [] ∧
    mergeAliases s2One "q" (["x"] ++ "y" :: []) [] [] =
      mergeAliases s2One "q" (["x"] ++ []) [] [] ∧
    invoke s2Empty crOne "q" (some "NeurIPS") 3 = (crOne "q").take 3 :=
  ⟨transport_failure_fail_soft.1 "timeout" none none none,
   transport_failure_fail_soft.2.1 "HTTP 500",
   transport_failure_fail_soft.2.2.1 s2One "q" "y" ["x"] [] [] [] (by decide),
   transport_failure_fail_soft.2.2.2 s2Empty crOne "q" (some "NeurIPS") 3
     (fun _ => rfl)⟩







